import Mathlib

/-!
Formal model of the bloomin-presence-display Home Assistant integration
(custom_components/bloomin_presence_display). Pure computations (overlay
geometry, MAC normalization, presence aggregation, folder filtering) are
translated directly from the Python source; external collaborators
(filesystem, BLE transport, Home Assistant registries and services, HTTP)
are modelled as oracle fields of explicit environment structures, and the
orchestration functions are straight-line translations of the Python
control flow that additionally record which channel calls were made.
-/

namespace Bloomin

/-- Model of Python str.upper for the ASCII strings used here
(ble_wake.py line 274: mac_address.upper()). -/
def pyUpper (s : String) : String := ⟨s.data.map Char.toUpper⟩

/-- Model of Python str.lower for the ASCII strings used here
(coordinator.py line 153: f.suffix.lower()). -/
def pyLower (s : String) : String := ⟨s.data.map Char.toLower⟩

/-- Model of Python str.replace(old, new) for the single-character
patterns used in ble_wake.py line 274; for a one-character pattern and a
one-character replacement, str.replace is a character-wise map. -/
def pyReplaceChar (old new : Char) (s : String) : String :=
  ⟨s.data.map (fun c => if c = old then new else c)⟩

/-- MAC-address normalization from ble_wake.py lines 64 and 274:
mac_address.upper().replace("-", ":").replace("_", ":"). -/
def normalizeMacAddress (s : String) : String :=
  pyReplaceChar '_' ':' (pyReplaceChar '-' ':' (pyUpper s))

/-- Index of the last '.' in a character list (Python str.rfind('.')),
or none when there is no dot. -/
def lastDotIdx (cs : List Char) : Option Nat :=
  ((cs.enum.filter (fun p => p.2 == '.')).getLast?).map (fun p => p.1)

/-- Model of pathlib PurePath.suffix on a final path component: the part
of the name from its last dot, provided that dot is neither the first nor
the last character; otherwise the empty string. -/
def pySuffix (name : String) : String :=
  let cs := name.data
  match lastDotIdx cs with
  | some i => if 0 < i ∧ i < cs.length - 1 then ⟨cs.drop i⟩ else ""
  | none => ""

/-! Image processor (image_processor.py). -/

/-- Translation of ImageProcessor._calculate_position
(image_processor.py lines 105-119). -/
def calculatePosition (width height : Int) (position : String)
    (badgeSize margin : Int) : Int × Int :=
  if position = "bottom_right" then
    (width - badgeSize - margin, height - badgeSize - margin)
  else if position = "bottom_left" then
    (margin, height - badgeSize - margin)
  else if position = "top_right" then
    (width - badgeSize - margin, margin)
  else if position = "top_left" then
    (margin, margin)
  else
    (width - badgeSize - margin, height - badgeSize - margin)

/-- Overlay configuration dictionary passed to _create_overlay: each field
optional, mirroring config.get(key, default) in image_processor.py
lines 78-83 and 93-94. -/
structure OverlayConfig where
  position : Option String
  style : Option String
  badgeSize : Option Int
  iconSize : Option Int
  fontSize : Option Int
  margin : Option Int
  homeText : Option String
  awayText : Option String

/-- The draw call that _create_overlay issues on the transparent layer
(image_processor.py lines 96-101), with the arguments it passes. -/
inductive OverlayDraw where
  | badge (x y : Int) (isHome : Bool) (size : Int)
  | label (x y : Int) (isHome : Bool) (width height fontSize margin : Int)
      (homeText awayText : String)
  | icon (x y : Int) (isHome : Bool) (size : Int)
  | nothing

/-- Translation of ImageProcessor._create_overlay
(image_processor.py lines 70-103): reads the config with its defaults,
computes the anchor via _calculate_position from badge_size and margin,
then dispatches on the style string. Returns the anchor and the draw call. -/
def createOverlay (width height : Int) (isHome : Bool)
    (config : OverlayConfig) : (Int × Int) × OverlayDraw :=
  let position := config.position.getD "bottom_right"
  let style := config.style.getD "badge"
  let badgeSize := config.badgeSize.getD 40
  let iconSize := config.iconSize.getD 32
  let fontSize := config.fontSize.getD 16
  let margin := config.margin.getD 15
  let p := calculatePosition width height position badgeSize margin
  let homeText := config.homeText.getD "집에 있음"
  let awayText := config.awayText.getD "외출 중"
  let draw :=
    if style = "badge" then OverlayDraw.badge p.1 p.2 isHome badgeSize
    else if style = "text" then
      OverlayDraw.label p.1 p.2 isHome width height fontSize margin
        homeText awayText
    else if style = "icon" then OverlayDraw.icon p.1 p.2 isHome iconSize
    else OverlayDraw.nothing
  (p, draw)

/-! Folder-mode image resolver (coordinator.py, get_latest_image). -/

/-- One immediate entry of the media folder, as seen by
folder_path.iterdir() in coordinator.py line 152: its final name and
whether f.is_file() holds. -/
structure FolderEntry where
  name : String
  isFile : Bool
deriving DecidableEq

/-- State of the configured media folder as observed by get_latest_image
(coordinator.py lines 129-173) and by the get_media_folder_path helper it
calls first (lines 73-87, call site at line 133, outside any try). A
missing folder is split by what mkdir does (lines 79-85): when creation
fails, the helper logs and re-raises the OSError/PermissionError, which
escapes the resolver; when creation succeeds, the resolver then sees a
freshly created empty directory. The remaining states: the path exists
but is not a directory (line 142), the directory raises while being
listed (PermissionError or any other exception, lines 157-162), or it
yields a list of immediate entries. After get_media_folder_path returns,
the folder exists (it was just created when absent), so the exists gate
at line 137 cannot fire without external interference; the
missing-but-creatable case instead reaches the empty-listing return at
lines 164-167. -/
inductive FolderState where
  | missingUncreatable
  | missingCreatable
  | notDirectory
  | unreadable
  | readable (entries : List FolderEntry)

/-- The accepted image extensions of coordinator.py line 148. -/
def imageExtensions : List String := [".jpg", ".jpeg", ".png", ".bmp"]

/-- The filter of coordinator.py line 153:
f.is_file() and f.suffix.lower() in image_extensions. -/
def isImageFile (e : FolderEntry) : Bool :=
  e.isFile && imageExtensions.contains (pyLower (pySuffix e.name))

/-- Translation of BloominPresenceCoordinator.get_latest_image
(coordinator.py lines 129-173), including the get_media_folder_path call
at line 133 that sits outside every try block: when the folder is
missing and cannot be created, the helper's re-raised
OSError/PermissionError (line 85) escapes the resolver, modelled as the
Except error case (the Unit payload stands for that exception). All
other failure modes return ok none. random.choice over the non-empty
candidate list is modelled by an arbitrary index reduced modulo the
list length. -/
def getLatestImage (st : FolderState) (choice : Nat) :
    Except Unit (Option FolderEntry) :=
  match st with
  | .missingUncreatable => .error ()
  | .missingCreatable => .ok none
  | .notDirectory => .ok none
  | .unreadable => .ok none
  | .readable entries =>
    let imageFiles := entries.filter isImageFile
    if imageFiles.isEmpty then .ok none
    else .ok (imageFiles.get? (choice % imageFiles.length))

/-! Wake channel chain (coordinator.py, wake_device). -/

/-- Environment of one wake_device run (coordinator.py lines 251-318).
Configuration fields are the coordinator attributes; the remaining
fields are oracles for the external collaborators: bleResult is the
outcome of wake_device_via_ble (some b = returned b, none = raised),
entity is what _find_bloomin_entity returns, whistleCallOk tells whether
the eink_display.whistle service call completes without raising, and
httpWakeResult is the outcome of BloominAPI.wake_device
(some b = returned b, none = raised). -/
structure WakeEnv where
  useBleWake : Bool
  bleMacAddress : String
  bleResult : Option Bool
  entity : Option String
  einkDomainExists : Bool
  whistleServiceExists : Bool
  whistleCallOk : Bool
  httpWakeResult : Option Bool

/-- Observable outcome of one wake_device run: which of the three channel
calls were made, and the Python return value of wake_device itself
(some b = a boolean was returned, none = the function returned None). -/
structure WakeOutcome where
  bleAttempted : Bool
  whistleAttempted : Bool
  httpAttempted : Bool
  retVal : Option Bool
deriving DecidableEq

/-- The guard of coordinator.py line 261:
if self.use_ble_wake and self.ble_mac_address. -/
def bleWakeConfigured (env : WakeEnv) : Bool :=
  env.useBleWake && !(env.bleMacAddress == "")

/-- The BLE channel terminates the chain exactly when it is configured
and wake_device_via_ble returns True (coordinator.py lines 269-276). -/
def bleWakeSucceeded (env : WakeEnv) : Bool :=
  bleWakeConfigured env && (env.bleResult == some true)

/-- Translation of BloominPresenceCoordinator.wake_device
(coordinator.py lines 251-318). Priority 1: BLE, when enabled and a MAC
is set; a True result returns immediately (returning None), a False
result or an exception falls through. Priority 2: the
eink_display.whistle service, when an entity was resolved and the domain
and service exist; a completed call returns immediately (returning
None), an exception falls through. Priority 3: the HTTP wake endpoint,
whose result is only logged. Every path of the Python function returns
None, hence retVal = none throughout. -/
def wakeDevice (env : WakeEnv) : WakeOutcome :=
  if bleWakeConfigured env && (env.bleResult == some true) then
    { bleAttempted := true, whistleAttempted := false,
      httpAttempted := false, retVal := none }
  else
    let bleAttempted := bleWakeConfigured env
    if env.entity.isSome && env.einkDomainExists && env.whistleServiceExists
    then
      if env.whistleCallOk then
        { bleAttempted := bleAttempted, whistleAttempted := true,
          httpAttempted := false, retVal := none }
      else
        { bleAttempted := bleAttempted, whistleAttempted := true,
          httpAttempted := true, retVal := none }
    else
      { bleAttempted := bleAttempted, whistleAttempted := false,
        httpAttempted := true, retVal := none }

/-! Pipeline orchestrator (coordinator.py, process_and_upload_image)
and the delivery chain it contains. -/

/-- Model of posix pathlib Path.is_absolute, used at
coordinator.py line 102. -/
def pyIsAbsolute (s : String) : Bool := s.startsWith "/"

/-- The person_states list built by coordinator.py lines 338-348: for
each configured person entity, hass.states.get is consulted; entities
without a state object are skipped, the rest contribute their
(entity_id, state) pair in order. -/
def personStatesList (entities : List String)
    (states : String → Option String) : List (String × String) :=
  entities.filterMap (fun e => (states e).map (fun s => (e, s)))

/-- The is_home flag of coordinator.py lines 337-351: it becomes True
exactly when some surviving (entity, state) pair has state equal to
PERSON_STATE_HOME, i.e. "home". -/
def computeIsHome (entities : List String)
    (states : String → Option String) : Bool :=
  (personStatesList entities states).any (fun p => p.2 == "home")

/-- Environment of one process_and_upload_image run. Configuration
fields mirror the coordinator attributes; the rest are oracles for the
external collaborators: states is hass.states.get; pathExists and
isFile are the filesystem checks; folderState and choice feed
get_latest_image; renderOk tells whether
ImageProcessor.add_presence_overlay completes (false = it raised, which
the outer handler of coordinator.py lines 569-574 converts to False);
entity is what _find_bloomin_entity returns at the delivery stage;
saveOk tells whether writing the processed file raises; savedExists is
the post-write existence verification; serviceAccepts i tells whether
the media_player.play_media call with the i-th media_content_id variant
completes without raising. -/
structure PipelineEnv where
  personEntities : List String
  states : String → Option String
  imageSource : String
  imagePathCfg : String
  mediaDir : String
  pathExists : String → Bool
  isFile : String → Bool
  folderState : FolderState
  choice : Nat
  providedImagePath : Option String
  renderOk : Bool
  entity : Option String
  saveOk : Bool
  savedExists : Bool
  serviceAccepts : Nat → Bool

/-- The path that single-file mode resolves (coordinator.py lines
101-109): the configured path itself when absolute, otherwise the
configured path joined under the media directory. -/
def resolvedFilePath (env : PipelineEnv) : String :=
  if pyIsAbsolute env.imagePathCfg then env.imagePathCfg
  else env.mediaDir ++ "/" ++ env.imagePathCfg

/-- Translation of BloominPresenceCoordinator.get_image_path
(coordinator.py lines 89-127): in file mode an unset path, a
nonexistent resolved path, or a resolved path that is not a regular
file each yield none; otherwise the resolved path. In folder mode the
folder resolver's outcome is returned as is, so a raise escaping
get_latest_image escapes get_image_path too. -/
def getImagePath (env : PipelineEnv) : Except Unit (Option String) :=
  if env.imageSource == "file" then
    if env.imagePathCfg == "" then .ok none
    else
      let p := resolvedFilePath env
      if !(env.pathExists p) then .ok none
      else if !(env.isFile p) then .ok none
      else .ok (some p)
  else
    match getLatestImage env.folderState env.choice with
    | .error e => .error e
    | .ok r => .ok (r.map (fun f => f.name))

/-- Translation of BloominAPI.upload_image (bloomin_api.py lines
29-74): POST of the encoded bytes to the upload endpoint; True exactly
on HTTP status 200, False on any other status and on any raised
network, timeout or unexpected error (modelled by none). -/
def uploadImage (httpStatus : Option Nat) : Bool :=
  match httpStatus with
  | some status => status == 200
  | none => false

/-- Observable outcome of one process_and_upload_image run: the boolean
the Python coroutine returns, whether the render stage
(add_presence_overlay) was invoked, whether any media_player.play_media
delivery call was made, whether BloominAPI.upload_image was ever called,
and the presence flag handed to the renderer (none when the run failed
before computing it). -/
structure PipelineOutcome where
  result : Bool
  renderAttempted : Bool
  playMediaAttempted : Bool
  uploadAttempted : Bool
  isHomeFlag : Option Bool
deriving DecidableEq

/-- Translation of BloominPresenceCoordinator.process_and_upload_image
(coordinator.py lines 320-574). Stages in source order: wake (its
outcome is ignored, modelled separately by wakeDevice); the person
entity checks and the is_home OR-reduction; image path resolution (a
raise escaping get_image_path is caught by the outer handlers of
coordinator.py lines 569-574, which return False) and the existence
re-check; the render stage; entity lookup for delivery; saving the
processed file and verifying it; then the play_media loop over the
five media_content_id variants, returning True on the first call that
completes and False after the loop. The coordinator contains
no call of BloominAPI.upload_image (its BloominAPI instance is created
at coordinator.py lines 68-70 for wake only), so uploadAttempted is
false on every path. -/
def processAndUploadImage (env : PipelineEnv) : PipelineOutcome :=
  if env.personEntities.isEmpty then
    { result := false, renderAttempted := false,
      playMediaAttempted := false, uploadAttempted := false,
      isHomeFlag := none }
  else
    let ps := personStatesList env.personEntities env.states
    let isHome := computeIsHome env.personEntities env.states
    if ps.isEmpty then
      { result := false, renderAttempted := false,
        playMediaAttempted := false, uploadAttempted := false,
        isHomeFlag := none }
    else
      let imagePath? :=
        match env.providedImagePath with
        | some p => Except.ok (some p)
        | none => getImagePath env
      match imagePath? with
      | .error _ =>
        { result := false, renderAttempted := false,
          playMediaAttempted := false, uploadAttempted := false,
          isHomeFlag := some isHome }
      | .ok none =>
        { result := false, renderAttempted := false,
          playMediaAttempted := false, uploadAttempted := false,
          isHomeFlag := some isHome }
      | .ok (some p) =>
        if !(env.pathExists p) then
          { result := false, renderAttempted := false,
            playMediaAttempted := false, uploadAttempted := false,
            isHomeFlag := some isHome }
        else if !env.renderOk then
          { result := false, renderAttempted := true,
            playMediaAttempted := false, uploadAttempted := false,
            isHomeFlag := some isHome }
        else
          match env.entity with
          | none =>
            { result := false, renderAttempted := true,
              playMediaAttempted := false, uploadAttempted := false,
              isHomeFlag := some isHome }
          | some _ =>
            if !env.saveOk then
              { result := false, renderAttempted := true,
                playMediaAttempted := false, uploadAttempted := false,
                isHomeFlag := some isHome }
            else if !env.savedExists then
              { result := false, renderAttempted := true,
                playMediaAttempted := false, uploadAttempted := false,
                isHomeFlag := some isHome }
            else
              match (List.range 5).find? env.serviceAccepts with
              | some _ =>
                { result := true, renderAttempted := true,
                  playMediaAttempted := true, uploadAttempted := false,
                  isHomeFlag := some isHome }
              | none =>
                { result := false, renderAttempted := true,
                  playMediaAttempted := true, uploadAttempted := false,
                  isHomeFlag := some isHome }

/-! Concrete environments used to evaluate the model at specific inputs. -/

/-- A delivery-stage run in which everything up to entity resolution
succeeds, the companion media_player entity cannot be resolved, and the
device would reject every play_media variant. -/
def c1Env : PipelineEnv where
  personEntities := ["person.alice"]
  states := fun _ => some "home"
  imageSource := "file"
  imagePathCfg := "/media/photo.jpg"
  mediaDir := "/media"
  pathExists := fun _ => true
  isFile := fun _ => true
  folderState := .readable []
  choice := 0
  providedImagePath := some "/media/photo.jpg"
  renderOk := true
  entity := none
  saveOk := true
  savedExists := true
  serviceAccepts := fun _ => false

/-- A wake run in which the BLE channel is configured and its wake call
returns True, so the chain terminates at the first channel. -/
def c2Env : WakeEnv where
  useBleWake := true
  bleMacAddress := "AA:BB:CC:DD:EE:FF"
  bleResult := some true
  entity := none
  einkDomainExists := false
  whistleServiceExists := false
  whistleCallOk := false
  httpWakeResult := some false

/-- A single-file-mode run whose configured absolute path exists nowhere
on the filesystem. -/
def c6Env : PipelineEnv where
  personEntities := ["person.alice"]
  states := fun _ => some "home"
  imageSource := "file"
  imagePathCfg := "/missing/photo.jpg"
  mediaDir := "/media"
  pathExists := fun _ => false
  isFile := fun _ => false
  folderState := .readable []
  choice := 0
  providedImagePath := none
  renderOk := true
  entity := some "media_player.bloomin"
  saveOk := true
  savedExists := true
  serviceAccepts := fun _ => true

/-! Theorems. -/

/-- Evaluation of _calculate_position on the literal "bottom_right". -/
theorem calculatePosition_eval_bottom_right (W H S M : Int) :
    calculatePosition W H "bottom_right" S M =
      (W - S - M, H - S - M) := rfl

/-- Evaluation of _calculate_position on the literal "bottom_left". -/
theorem calculatePosition_eval_bottom_left (W H S M : Int) :
    calculatePosition W H "bottom_left" S M = (M, H - S - M) := rfl

/-- Evaluation of _calculate_position on the literal "top_right". -/
theorem calculatePosition_eval_top_right (W H S M : Int) :
    calculatePosition W H "top_right" S M = (W - S - M, M) := rfl

/-- Evaluation of _calculate_position on the literal "top_left". -/
theorem calculatePosition_eval_top_left (W H S M : Int) :
    calculatePosition W H "top_left" S M = (M, M) := rfl

/-- C3: for every width W, height H, element size S and margin M the
computed overlay anchor is (W - S - M, H - S - M) for bottom-right,
(M, H - S - M) for bottom-left, (W - S - M, M) for top-right and (M, M)
for top-left; in particular, for bottom_right with S = 40, M = 15 on an
800 by 600 image the anchor is (745, 545). -/
theorem claim_C3_anchor_formulas :
    (∀ W H S M : Int,
      calculatePosition W H "bottom_right" S M = (W - S - M, H - S - M) ∧
      calculatePosition W H "bottom_left" S M = (M, H - S - M) ∧
      calculatePosition W H "top_right" S M = (W - S - M, M) ∧
      calculatePosition W H "top_left" S M = (M, M)) ∧
    calculatePosition 800 600 "bottom_right" 40 15 = (745, 545) :=
  ⟨fun _ _ _ _ => ⟨rfl, rfl, rfl, rfl⟩, by decide⟩

/-- C7: radio-address normalization maps a lowercase hyphen-separated,
an uppercase underscore-separated and a lowercase colon-separated form
of the same address all to the canonical uppercase colon-separated
form. -/
theorem claim_C7_mac_normalization :
    normalizeMacAddress "aa-bb-cc-dd-ee-ff" = "AA:BB:CC:DD:EE:FF" ∧
    normalizeMacAddress "AA_BB_CC_DD_EE_FF" = "AA:BB:CC:DD:EE:FF" ∧
    normalizeMacAddress "aa:bb:cc:dd:ee:ff" = "AA:BB:CC:DD:EE:FF" := by
  refine ⟨?_, ?_, ?_⟩ <;> decide

/-- C9: the overlay anchor computed by _create_overlay depends only on
the position, badge_size and margin entries of the configuration:
changing icon_size or font_size while holding the rest fixed never
changes the anchor, for every style. -/
theorem claim_C9_anchor_ignores_variant_sizes (width height : Int)
    (isHome : Bool) (config : OverlayConfig) (i f : Option Int) :
    (createOverlay width height isHome
      { config with iconSize := i, fontSize := f }).1 =
    (createOverlay width height isHome config).1 := rfl

/-- C10: every position string other than the four recognized corner
names yields the bottom-right anchor (W - S - M, H - S - M); the
position calculation is total and never errors. -/
theorem claim_C10_default_position (W H S M : Int) (pos : String)
    (h1 : pos ≠ "bottom_right") (h2 : pos ≠ "bottom_left")
    (h3 : pos ≠ "top_right") (h4 : pos ≠ "top_left") :
    calculatePosition W H pos S M = (W - S - M, H - S - M) := by
  unfold calculatePosition
  rw [if_neg h1, if_neg h2, if_neg h3, if_neg h4]

/-- Witness for C10 at the unrecognized position string "center". -/
theorem claim_C10_witness :
    calculatePosition 800 600 "center" 40 15 = (745, 545) :=
  (claim_C10_default_position 800 600 40 15 "center"
      (by decide) (by decide) (by decide) (by decide)).trans (by decide)

/-- C4: for all W, H, nonnegative S and M with S + 2*M ≤ min W H, and
each of the four corner positions, the computed anchor (x, y) keeps the
rendered element inside the image: 0 ≤ x, 0 ≤ y, x + S ≤ W and
y + S ≤ H. -/
theorem claim_C4_anchor_in_bounds (W H S M : Int) (pos : String)
    (_hS : 0 ≤ S) (hM : 0 ≤ M) (hfit : S + 2 * M ≤ min W H)
    (hpos : pos ∈ ["bottom_right", "bottom_left", "top_right", "top_left"]) :
    0 ≤ (calculatePosition W H pos S M).1 ∧
    0 ≤ (calculatePosition W H pos S M).2 ∧
    (calculatePosition W H pos S M).1 + S ≤ W ∧
    (calculatePosition W H pos S M).2 + S ≤ H := by
  rw [le_min_iff] at hfit
  obtain ⟨hW, hH⟩ := hfit
  simp only [List.mem_cons, List.not_mem_nil, or_false] at hpos
  rcases hpos with rfl | rfl | rfl | rfl
  · rw [calculatePosition_eval_bottom_right]
    exact ⟨by omega, by omega, by omega, by omega⟩
  · rw [calculatePosition_eval_bottom_left]
    exact ⟨by omega, by omega, by omega, by omega⟩
  · rw [calculatePosition_eval_top_right]
    exact ⟨by omega, by omega, by omega, by omega⟩
  · rw [calculatePosition_eval_top_left]
    exact ⟨by omega, by omega, by omega, by omega⟩

/-- Witness for C4 at W = 800, H = 600, S = 40, M = 15, bottom_right. -/
theorem claim_C4_witness :
    0 ≤ (calculatePosition 800 600 "bottom_right" 40 15).1 ∧
    0 ≤ (calculatePosition 800 600 "bottom_right" 40 15).2 ∧
    (calculatePosition 800 600 "bottom_right" 40 15).1 + 40 ≤ 800 ∧
    (calculatePosition 800 600 "bottom_right" 40 15).2 + 40 ≤ 600 :=
  claim_C4_anchor_in_bounds 800 600 40 15 "bottom_right"
    (by decide) (by decide) (by decide) (by decide)

/-- C5: the presence flag is an OR-reduction over the configured person
entities: it is true exactly when some configured entity has a state
object whose state equals "home". -/
theorem claim_C5_or_reduction (entities : List String)
    (states : String → Option String) :
    computeIsHome entities states = true ↔
      ∃ e ∈ entities, states e = some "home" := by
  simp only [computeIsHome, personStatesList, List.any_eq_true,
    List.mem_filterMap, Option.map_eq_some', beq_iff_eq]
  constructor
  · rintro ⟨x, ⟨e, he, s, hs, rfl⟩, h2⟩
    simp only at h2
    subst h2
    exact ⟨e, he, hs⟩
  · rintro ⟨e, he, hs⟩
    exact ⟨(e, "home"), ⟨e, he, "home", hs, rfl⟩, rfl⟩

/-- C8 counterexample: on a missing folder whose creation fails, the
resolver does not return a no-image result; the OSError or
PermissionError re-raised by get_media_folder_path escapes it,
contradicting the claimed no-raise behavior for missing folders. -/
theorem claim_C8_counterexample :
    getLatestImage .missingUncreatable 0 = .error () ∧
    ¬ getLatestImage .missingUncreatable 0 = .ok none :=
  ⟨rfl, fun h => Except.noConfusion h⟩

/-- C8 as amended: the folder-mode resolver returns a no-image result
rather than raising when the folder is empty, not a directory,
unreadable, or missing but creatable (it is then created empty); when
the folder is missing and cannot be created, the resolver raises the
folder-creation error instead. Whenever it selects an entry from a
readable folder, that entry is an immediate file whose lowercased
extension is one of the accepted image extensions. -/
theorem claim_C8_amended (entries : List FolderEntry) (c : Nat)
    (f : FolderEntry) :
    getLatestImage .missingCreatable c = .ok none ∧
    getLatestImage .notDirectory c = .ok none ∧
    getLatestImage .unreadable c = .ok none ∧
    getLatestImage (.readable []) c = .ok none ∧
    getLatestImage .missingUncreatable c = .error () ∧
    (getLatestImage (.readable entries) c = .ok (some f) →
      f ∈ entries ∧ f.isFile = true ∧
      imageExtensions.contains (pyLower (pySuffix f.name)) = true) := by
  refine ⟨rfl, rfl, rfl, rfl, rfl, ?_⟩
  intro h
  unfold getLatestImage at h
  by_cases hemp : (entries.filter isImageFile).isEmpty
  · simp [hemp] at h
  · simp only [hemp, if_neg, Bool.false_eq_true, not_false_iff,
      if_false, Except.ok.injEq] at h
    have hmem : f ∈ entries.filter isImageFile := List.get?_mem h
    have := List.mem_filter.mp hmem
    obtain ⟨h1, h2⟩ := this
    simp only [isImageFile, Bool.and_eq_true] at h2
    exact ⟨h1, h2.1, h2.2⟩

/-- Witness for C8 as amended, on a one-entry readable folder holding
the file photo.JPG, chosen at index 0. -/
theorem claim_C8_witness :
    (⟨"photo.JPG", true⟩ : FolderEntry) ∈
      [(⟨"photo.JPG", true⟩ : FolderEntry)] ∧
    (⟨"photo.JPG", true⟩ : FolderEntry).isFile = true ∧
    imageExtensions.contains (pyLower (pySuffix "photo.JPG")) = true :=
  (claim_C8_amended [⟨"photo.JPG", true⟩] 0
      ⟨"photo.JPG", true⟩).2.2.2.2.2 rfl

/-- C2 counterexample: in a run where the first (BLE) channel is
configured and succeeds, wake_device still returns None, not the
boolean True the claim requires; the operation does not return a
boolean at all. -/
theorem claim_C2_counterexample :
    bleWakeSucceeded c2Env = true ∧
    ¬ (wakeDevice c2Env).retVal = some true := by
  decide

/-- C2 as amended: wake_device always returns None rather than a
boolean; it tries the channels strictly in priority order, a BLE
success or a completed companion-service call terminates the chain
without attempting any later channel, and the raw network endpoint is
attempted exactly when neither earlier channel terminated the chain. -/
theorem claim_C2_amended (env : WakeEnv) :
    (wakeDevice env).retVal = none ∧
    (wakeDevice env).bleAttempted = bleWakeConfigured env ∧
    (wakeDevice env).whistleAttempted =
      (!bleWakeSucceeded env &&
        (env.entity.isSome && env.einkDomainExists &&
          env.whistleServiceExists)) ∧
    (wakeDevice env).httpAttempted =
      (!bleWakeSucceeded env &&
        !((wakeDevice env).whistleAttempted && env.whistleCallOk)) := by
  simp only [wakeDevice]
  split
  · rename_i hb
    have hconf : bleWakeConfigured env = true :=
      (Bool.and_eq_true _ _ ▸ hb).1
    have hres : env.bleResult = some true :=
      eq_of_beq (Bool.and_eq_true _ _ ▸ hb).2
    simp [bleWakeSucceeded, hb, hconf, hres]
  · rename_i hb
    have hb' : (bleWakeConfigured env && (env.bleResult == some true))
        = false := Bool.not_eq_true _ ▸ hb
    split
    · rename_i hw
      split
      · rename_i hc
        simp [bleWakeSucceeded, hb', hw, hc]
      · rename_i hc
        simp [bleWakeSucceeded, hb', hw,
          Bool.not_eq_true _ ▸ hc]
    · rename_i hw
      simp [bleWakeSucceeded, hb', Bool.not_eq_true _ ▸ hw]

/-- The coordinator's delivery stage contains no call of
BloominAPI.upload_image on any control path. -/
theorem processAndUploadImage_no_upload (env : PipelineEnv) :
    (processAndUploadImage env).uploadAttempted = false := by
  simp only [processAndUploadImage]
  repeat' split
  all_goals rfl

/-- A candidate predicate that rejects every index below five makes the
find? over List.range 5 come up empty. -/
theorem find_none_of_all_rejected (f : Nat → Bool)
    (h : ∀ i < 5, f i = false) : (List.range 5).find? f = none := by
  rw [List.find?_eq_none]
  intro x hx
  simp [h x (List.mem_range.mp hx)]

/-- C1 counterexample: in a run where the companion media_player entity
cannot be resolved (and the device would reject every variant), the
network-upload channel is still not attempted, contradicting the
claimed if-and-only-if. -/
theorem claim_C1_counterexample :
    ¬ ((processAndUploadImage c1Env).uploadAttempted = true ↔
      (c1Env.entity = none ∨
        ∀ i < 5, c1Env.serviceAccepts i = false)) := by
  decide

/-- C1 as amended: the raw network-upload channel is never attempted by
the delivery stage; when the companion entity cannot be resolved or
every media_content_id variant is rejected, overall delivery simply
fails. -/
theorem claim_C1_amended (env : PipelineEnv) :
    (processAndUploadImage env).uploadAttempted = false ∧
    ((env.entity = none ∨ ∀ i < 5, env.serviceAccepts i = false) →
      (processAndUploadImage env).result = false) := by
  refine ⟨processAndUploadImage_no_upload env, ?_⟩
  intro h
  simp only [processAndUploadImage]
  repeat' split
  all_goals try rfl
  rcases h with he | hr
  · simp_all
  · have hn := find_none_of_all_rejected env.serviceAccepts hr
    simp_all

/-- Witness for C1 as amended, at the concrete run with an unresolved
companion entity. -/
theorem claim_C1_witness :
    (processAndUploadImage c1Env).uploadAttempted = false ∧
    (processAndUploadImage c1Env).result = false :=
  ⟨(claim_C1_amended c1Env).1, (claim_C1_amended c1Env).2 (Or.inl rfl)⟩

/-- C6: in single-file mode, when the configured path is unset or the
resolved path does not exist or is not a regular file, image resolution
returns none and the pipeline returns failure without invoking the
render stage or any delivery channel. -/
theorem claim_C6_single_file_missing (env : PipelineEnv)
    (hsrc : env.imageSource = "file")
    (hprov : env.providedImagePath = none)
    (hbad : env.imagePathCfg = "" ∨
      env.pathExists (resolvedFilePath env) = false ∨
      env.isFile (resolvedFilePath env) = false) :
    getImagePath env = .ok none ∧
    (processAndUploadImage env).result = false ∧
    (processAndUploadImage env).renderAttempted = false ∧
    (processAndUploadImage env).playMediaAttempted = false ∧
    (processAndUploadImage env).uploadAttempted = false := by
  have himg : getImagePath env = .ok none := by
    by_cases hcfg : env.imagePathCfg = ""
    · simp [getImagePath, hsrc, hcfg]
    · rcases hbad with h | h | h
      · exact absurd h hcfg
      · simp [getImagePath, hsrc, hcfg, h]
      · simp [getImagePath, hsrc, hcfg, h]
  refine ⟨himg, ?_⟩
  simp only [processAndUploadImage, hprov, himg]
  repeat' split
  all_goals exact ⟨rfl, rfl, rfl, rfl⟩

/-- Witness for C6 at a concrete single-file-mode environment whose
configured path exists nowhere. -/
theorem claim_C6_witness :
    getImagePath c6Env = .ok none ∧
    (processAndUploadImage c6Env).result = false ∧
    (processAndUploadImage c6Env).renderAttempted = false ∧
    (processAndUploadImage c6Env).playMediaAttempted = false ∧
    (processAndUploadImage c6Env).uploadAttempted = false :=
  claim_C6_single_file_missing c6Env rfl rfl (Or.inr (Or.inl rfl))

end Bloomin
